import Mathlib

/-
Shallow embedding of the pyoption library.

Instrument algebra: src/pyoption/classes.py
  - `OptionType`, `ExerciseType` enums; class `Option` (here `PyOption`,
    since `Option` is taken by Lean) with `__hash__` / `__eq__` over the
    triple (option_type, exercise_price, exercise_type), payoff `value`,
    and the operators building `OptionPortfolio` objects.
  - `OptionPortfolio.__init__` builds a dict from an (option, count) list;
    Python dict semantics (lookup by `__eq__`, insertion keeps the first
    stored key and overwrites the value) are modelled by an association
    list with an explicit `dictSet` / `dictGet`.

Pricing engine: src/pyoption/pricing/gbs.py
  - `_generalized_black_scholes` and its four specializations, the
    implied-volatility solver `_implied_volatility` built on
    scipy.optimize.bisect, and its two wrappers.
  - Real arithmetic is embedded into an arbitrary linear ordered field;
    the transcendental primitives (math.sqrt, math.log, math.exp,
    scipy.stats.norm.pdf / norm.cdf) are an explicit record of functions
    `MathPrims`, so that every definition stays executable and theorems
    can quantify over the primitives, adding exactly the analytic facts
    they need as hypotheses.
  - Python exceptions (ValueError from math.sqrt / math.log,
    ZeroDivisionError, TypeError from subscripting None, the scipy
    bracket / convergence errors) are modelled by `Except String`.
-/

set_option linter.unusedVariables false

deriving instance DecidableEq for Except

section PyOptionModel

variable {α : Type} [LinearOrderedField α]

/-- Enum `OptionType` from classes.py. -/
inductive OptionType where
  | CALL
  | PUT
deriving DecidableEq

/-- Enum `ExerciseType` from classes.py. -/
inductive ExerciseType where
  | EUROPEAN
  | AMERICAN
deriving DecidableEq

/-- Class `Option` from classes.py (renamed: `Option` is taken by Lean).
`option_type` is a class attribute, `None` on the base class and set on the
`CallOption` / `PutOption` subclasses, hence `Option OptionType` here. -/
structure PyOption (α : Type) where
  option_type : Option OptionType
  exercise_price : α
  exercise_type : ExerciseType
  time_to_expiration : Option α
deriving DecidableEq

/-- `CallOption(exercise_price, time_to_expiration=None)` with the default
`exercise_type=ExerciseType.EUROPEAN` from `Option.__init__`. -/
def CallOption (exercise_price : α) (time_to_expiration : Option α) : PyOption α :=
  ⟨some OptionType.CALL, exercise_price, ExerciseType.EUROPEAN, time_to_expiration⟩

/-- `PutOption(exercise_price, time_to_expiration=None)`. -/
def PutOption (exercise_price : α) (time_to_expiration : Option α) : PyOption α :=
  ⟨some OptionType.PUT, exercise_price, ExerciseType.EUROPEAN, time_to_expiration⟩

/-- `Option.__hash__`: `hash((self.option_type, self.exercise_price,
self.exercise_type))`.  The Python hash of the triple is modelled by the
triple itself (an idealized collision-free hash). -/
def optHash (a : PyOption α) : Option OptionType × α × ExerciseType :=
  (a.option_type, a.exercise_price, a.exercise_type)

/-- `Option.__eq__`: `hash(self) == hash(other)`. -/
def optEq [DecidableEq α] (a b : PyOption α) : Bool :=
  decide (optHash a = optHash b)

/-- `Option.value(spot_price)`: call payoff `max(spot_price -
exercise_price, 0)`, put payoff `max(exercise_price - spot_price, 0)`,
`ValueError` when `option_type` is neither tag. -/
def PyOption.value (o : PyOption α) (spot_price : α) : Except String α :=
  match o.option_type with
  | some OptionType.CALL => Except.ok (max (spot_price - o.exercise_price) 0)
  | some OptionType.PUT => Except.ok (max (o.exercise_price - spot_price) 0)
  | none => Except.error "Unrecognized option type"

/-- Python `dict.get(k, default)` on the insertion-ordered association
list, with key comparison by `Option.__eq__`. -/
def dictGet (d : List (PyOption α × Int)) (k : PyOption α) (dflt : Int) : Int :=
  match d with
  | [] => dflt
  | (k2, v) :: rest => if optEq k2 k then v else dictGet rest k dflt

/-- Python `d[k] = v`: overwrite the value at the first key equal to `k`
(the stored key object is kept), or append a new entry. -/
def dictSet (d : List (PyOption α × Int)) (k : PyOption α) (v : Int) :
    List (PyOption α × Int) :=
  match d with
  | [] => [(k, v)]
  | (k2, v2) :: rest =>
    if optEq k2 k then (k2, v) :: rest else (k2, v2) :: dictSet rest k v

/-- The dict comprehension `{opt: cnt for opt, cnt in options}` from
`OptionPortfolio.__init__`: later entries with an equal key overwrite
earlier ones. -/
def dictOfList (options : List (PyOption α × Int)) : List (PyOption α × Int) :=
  options.foldl (fun d p => dictSet d p.1 p.2) []

/-- Class `OptionPortfolio`: a mapping from option to its quantity. -/
structure OptionPortfolio (α : Type) where
  options : List (PyOption α × Int)
deriving DecidableEq

/-- `OptionPortfolio.__init__(options)`. -/
def mkOptionPortfolio (options : List (PyOption α × Int)) : OptionPortfolio α :=
  ⟨dictOfList options⟩

/-- `Option.__mul__` (and `__rmul__`): `OptionPortfolio([(self, n)])`. -/
def PyOption.mul (o : PyOption α) (n : Int) : OptionPortfolio α :=
  mkOptionPortfolio [(o, n)]

/-- `Option.__neg__`: `OptionPortfolio([(self, -1)])`. -/
def PyOption.neg (o : PyOption α) : OptionPortfolio α :=
  mkOptionPortfolio [(o, -1)]

/-- The `isinstance(other, Option)` branch of `Option.__add__`:
`OptionPortfolio([(self, 1), (other, 1)])`. -/
def PyOption.add (o other : PyOption α) : OptionPortfolio α :=
  mkOptionPortfolio [(o, 1), (other, 1)]

/-- The `isinstance(other, Option)` branch of `Option.__sub__`:
`OptionPortfolio([(self, 1), (other, -1)])`. -/
def PyOption.sub (o other : PyOption α) : OptionPortfolio α :=
  mkOptionPortfolio [(o, 1), (other, -1)]

/-- The generator sum in `OptionPortfolio.value`: left fold of
`opt.value(spot_price) * cnt` starting from `0`, propagating the first
exception. -/
def sumLegs (legs : List (PyOption α × Int)) (spot_price : α) (acc : α) :
    Except String α :=
  match legs with
  | [] => Except.ok acc
  | (opt, cnt) :: rest =>
    (opt.value spot_price).bind fun v => sumLegs rest spot_price (acc + v * (cnt : α))

/-- `OptionPortfolio.value(spot_price)`. -/
def OptionPortfolio.value (p : OptionPortfolio α) (spot_price : α) : Except String α :=
  sumLegs p.options spot_price 0

end PyOptionModel

section PricingModel

variable {α : Type} [LinearOrderedField α]

/-- The transcendental primitives used by gbs.py: `math.sqrt`, `math.log`,
`math.exp` and `scipy.stats.norm.pdf` / `norm.cdf`.  Theorems quantify over
this record and assume exactly the analytic facts they need. -/
structure MathPrims (α : Type) where
  sqrt : α → α
  log : α → α
  exp : α → α
  normCdf : α → α
  normPdf : α → α

/-- The Greeks dictionary `{value, delta, gamma, theta, vega, rho}` returned
by the put branch of `_generalized_black_scholes`. -/
structure Greeks (α : Type) where
  value : α
  delta : α
  gamma : α
  theta : α
  vega : α
  rho : α
deriving DecidableEq

/-- `d1 = (math.log(fs / x) + (b + (v * v) / 2) * t) / (v * t_sqrt)`. -/
def d1 (M : MathPrims α) (fs x t b v : α) : α :=
  (M.log (fs / x) + (b + (v * v) / 2) * t) / (v * M.sqrt t)

/-- `d2 = d1 - v * t_sqrt`. -/
def d2 (M : MathPrims α) (fs x t b v : α) : α :=
  d1 M fs x t b v - v * M.sqrt t

/-- Call branch: `value = fs * exp((b - r) * t) * cdf(d1) - x * exp(-r * t) * cdf(d2)`.
This quantity is computed by the call branch but never returned (the
`return` statement exists only in the put branch). -/
def call_value (M : MathPrims α) (fs x t r b v : α) : α :=
  fs * M.exp ((b - r) * t) * M.normCdf (d1 M fs x t b v) -
    x * M.exp (-(r * t)) * M.normCdf (d2 M fs x t b v)

/-- Call branch: `delta = exp((b - r) * t) * cdf(d1)`. -/
def call_delta (M : MathPrims α) (fs x t r b v : α) : α :=
  M.exp ((b - r) * t) * M.normCdf (d1 M fs x t b v)

/-- Call branch: `gamma = exp((b - r) * t) * pdf(d1) / (fs * v * t_sqrt)`. -/
def call_gamma (M : MathPrims α) (fs x t r b v : α) : α :=
  M.exp ((b - r) * t) * M.normPdf (d1 M fs x t b v) / (fs * v * M.sqrt t)

/-- Call branch `theta`. -/
def call_theta (M : MathPrims α) (fs x t r b v : α) : α :=
  -(fs * v * M.exp ((b - r) * t) * M.normPdf (d1 M fs x t b v)) / (2 * M.sqrt t) -
    (b - r) * fs * M.exp ((b - r) * t) * M.normCdf (d1 M fs x t b v) -
    r * x * M.exp (-(r * t)) * M.normCdf (d2 M fs x t b v)

/-- Call branch: `vega = exp((b - r) * t) * fs * t_sqrt * pdf(d1)`. -/
def call_vega (M : MathPrims α) (fs x t r b v : α) : α :=
  M.exp ((b - r) * t) * fs * M.sqrt t * M.normPdf (d1 M fs x t b v)

/-- Call branch: `rho = x * t * exp(-r * t) * cdf(d2)`. -/
def call_rho (M : MathPrims α) (fs x t r b v : α) : α :=
  x * t * M.exp (-(r * t)) * M.normCdf (d2 M fs x t b v)

/-- Put branch: `value = x * exp(-r * t) * cdf(-d2) - fs * exp((b - r) * t) * cdf(-d1)`. -/
def put_value (M : MathPrims α) (fs x t r b v : α) : α :=
  x * M.exp (-(r * t)) * M.normCdf (-(d2 M fs x t b v)) -
    fs * M.exp ((b - r) * t) * M.normCdf (-(d1 M fs x t b v))

/-- Put branch: `delta = -exp((b - r) * t) * cdf(-d1)`. -/
def put_delta (M : MathPrims α) (fs x t r b v : α) : α :=
  -(M.exp ((b - r) * t) * M.normCdf (-(d1 M fs x t b v)))

/-- Put branch: `gamma = exp((b - r) * t) * pdf(d1) / (fs * v * t_sqrt)`. -/
def put_gamma (M : MathPrims α) (fs x t r b v : α) : α :=
  M.exp ((b - r) * t) * M.normPdf (d1 M fs x t b v) / (fs * v * M.sqrt t)

/-- Put branch `theta`. -/
def put_theta (M : MathPrims α) (fs x t r b v : α) : α :=
  -(fs * v * M.exp ((b - r) * t) * M.normPdf (d1 M fs x t b v)) / (2 * M.sqrt t) +
    (b - r) * fs * M.exp ((b - r) * t) * M.normCdf (-(d1 M fs x t b v)) +
    r * x * M.exp (-(r * t)) * M.normCdf (-(d2 M fs x t b v))

/-- Put branch: `vega = exp((b - r) * t) * fs * t_sqrt * pdf(d1)`. -/
def put_vega (M : MathPrims α) (fs x t r b v : α) : α :=
  M.exp ((b - r) * t) * fs * M.sqrt t * M.normPdf (d1 M fs x t b v)

/-- Put branch: `rho = -x * t * exp(-r * t) * cdf(-d2)`. -/
def put_rho (M : MathPrims α) (fs x t r b v : α) : α :=
  -(x * t * M.exp (-(r * t)) * M.normCdf (-(d2 M fs x t b v)))

/-- The dictionary returned by the put branch: `vega` and `rho` are divided
by 100 in the dict literal, the other entries are returned as computed. -/
def putGreeks (M : MathPrims α) (fs x t r b v : α) : Greeks α :=
  { value := put_value M fs x t r b v
    delta := put_delta M fs x t r b v
    gamma := put_gamma M fs x t r b v
    theta := put_theta M fs x t r b v
    vega := put_vega M fs x t r b v / 100
    rho := put_rho M fs x t r b v / 100 }

/-- `_generalized_black_scholes(option_type, fs, x, t, r, b, v)`.

Python's implicit failure points are made explicit, in evaluation order:
`math.sqrt(t)` raises ValueError for `t < 0`; `fs / x` raises
ZeroDivisionError for `x = 0`; `math.log` raises ValueError for a
non-positive argument; the division by `v * t_sqrt` in `d1` raises
ZeroDivisionError when that product is zero.  Past those, the call branch
computes its locals and falls off the end of the function (returns `None`);
every other option_type takes the else branch and returns the put dict. -/
def _generalized_black_scholes (M : MathPrims α) (option_type : String)
    (fs x t r b v : α) : Except String (Option (Greeks α)) :=
  if t < 0 then Except.error "ValueError: math domain error"
  else if x = 0 then Except.error "ZeroDivisionError: float division by zero"
  else if fs / x ≤ 0 then Except.error "ValueError: math domain error"
  else if v * M.sqrt t = 0 then Except.error "ZeroDivisionError: float division by zero"
  else if option_type = "call" then Except.ok none
  else Except.ok (some (putGreeks M fs x t r b v))

/-- `black_scholes`: `b = r`. -/
def black_scholes (M : MathPrims α) (option_type : String) (fs x t r v : α) :
    Except String (Option (Greeks α)) :=
  _generalized_black_scholes M option_type fs x t r r v

/-- `black_scholes_merton`: `b = r - q`. -/
def black_scholes_merton (M : MathPrims α) (option_type : String) (fs x t r q v : α) :
    Except String (Option (Greeks α)) :=
  _generalized_black_scholes M option_type fs x t r (r - q) v

/-- `black_scholes_commodity`: `b = 0`. -/
def black_scholes_commodity (M : MathPrims α) (option_type : String) (fs x t r v : α) :
    Except String (Option (Greeks α)) :=
  _generalized_black_scholes M option_type fs x t r 0 v

/-- `garman_kohlhagen`: `b = r - rf`. -/
def garman_kohlhagen (M : MathPrims α) (option_type : String) (fs x t r rf v : α) :
    Except String (Option (Greeks α)) :=
  _generalized_black_scholes M option_type fs x t r (r - rf) v

/-- The loop of scipy.optimize.bisect (scipy/optimize/Zeros/bisect.c),
fuelled by `maxiter`: halve `dm`, probe `xm = xa + dm`, move `xa` to `xm`
when `f(xm)` and the initial `f(xa)` have product `>= 0`, and return `xm`
as soon as `f(xm) = 0` or `|dm| < xtol + rtol * |xm|`.  Exhausting the
fuel is scipy's non-convergence RuntimeError. -/
def bisectLoop (f : α → Except String α) (fa xtol rtol : α) :
    α → α → ℕ → Except String α
  | _, _, 0 => Except.error "RuntimeError: Failed to converge"
  | xa, dm, Nat.succ n =>
    let dm2 := dm / 2
    let xm := xa + dm2
    (f xm).bind fun fm =>
      if fm = 0 ∨ |dm2| < xtol + rtol * |xm| then Except.ok xm
      else bisectLoop f fa xtol rtol (if 0 ≤ fm * fa then xm else xa) dm2 n

/-- scipy.optimize.bisect: evaluate `f` at both bracket endpoints, raise
ValueError when `f(a) * f(b) > 0`, return an endpoint when `f` vanishes
there, otherwise run the bisection loop. -/
def bisect (f : α → Except String α) (xa xb xtol rtol : α) (maxiter : ℕ) :
    Except String α :=
  (f xa).bind fun fa =>
  (f xb).bind fun fb =>
  if fa * fb > 0 then Except.error "ValueError: f(a) and f(b) must have different signs"
  else if fa = 0 then Except.ok xa
  else if fb = 0 then Except.ok xb
  else bisectLoop f fa xtol rtol xa (xb - xa) maxiter

/-- The nested objective `obj(v)` of `_implied_volatility`:
`abs(_generalized_black_scholes(...)['value'] - p)`.  Subscripting the
`None` that the call branch returns is Python's TypeError. -/
def objFn (M : MathPrims α) (option_type : String) (p fs x t r b : α) (v : α) :
    Except String α :=
  (_generalized_black_scholes M option_type fs x t r b v).bind fun og =>
    match og with
    | some g => Except.ok |g.value - p|
    | none => Except.error "TypeError: NoneType object is not subscriptable"

/-- `_implied_volatility`: `scipy.optimize.bisect(obj, min_volatility,
max_volatility, xtol=xtol, maxiter=max_iter)`.  scipy's `rtol` is left at
its machine-epsilon default, which is 0 in this idealized real-arithmetic
model. -/
def _implied_volatility (M : MathPrims α) (option_type : String) (max_iter : ℕ)
    (min_volatility max_volatility xtol : α) (p fs x t r b : α) :
    Except String α :=
  bisect (objFn M option_type p fs x t r b) min_volatility max_volatility xtol 0 max_iter

/-- `implied_volatility_stock`: computes `b = r - q`, then calls
`_implied_volatility` with the literals `max_iter=500`,
`min_volatility=0.01`, `max_volatility=1.0`, `xtol=0.001` — not with the
caller's arguments. -/
def implied_volatility_stock (M : MathPrims α) (option_type : String) (max_iter : ℕ)
    (min_volatility max_volatility xtol : α) (p fs x t r q : α) :
    Except String α :=
  _implied_volatility M option_type 500 (1 / 100) 1 (1 / 1000) p fs x t r (r - q)

/-- `implied_volatility_commodity`: calls `_implied_volatility` with `b=0`
and the literals `max_iter=500`, `min_volatility=0.01`,
`max_volatility=1.0`, `xtol=0.001` — not with the caller's arguments. -/
def implied_volatility_commodity (M : MathPrims α) (option_type : String) (max_iter : ℕ)
    (min_volatility max_volatility xtol : α) (p fs x t r : α) :
    Except String α :=
  _implied_volatility M option_type 500 (1 / 100) 1 (1 / 1000) p fs x t r 0

/-- True when the computation raised. -/
def isErr {β : Type} : Except String β → Bool
  | Except.error _ => true
  | Except.ok _ => false

/-- True when pricing returned an actual Greeks dictionary (neither an
exception nor Python's `None`). -/
def isOkSome : Except String (Option (Greeks α)) → Bool
  | Except.ok (some _) => true
  | _ => false

/-- The premise of the solver claims: the objective does not evaluate to
zero at volatility `v` (either it returns a nonzero number, or it raises). -/
def objNonzeroAt (M : MathPrims α) (option_type : String) (p fs x t r b : α)
    (v : α) : Bool :=
  match objFn M option_type p fs x t r b v with
  | Except.ok e => decide (e ≠ 0)
  | Except.error _ => true

/-- The target price `p` is strictly bracketed by the model prices at the
two bracket endpoints (the shape of every well-posed implied-volatility
query). -/
def strictlyBracketed (M : MathPrims α) (option_type : String)
    (fs x t r b min_volatility max_volatility p : α) : Bool :=
  match _generalized_black_scholes M option_type fs x t r b min_volatility with
  | Except.ok (some g1) =>
    match _generalized_black_scholes M option_type fs x t r b max_volatility with
    | Except.ok (some g2) => decide (g1.value < p) && decide (p < g2.value)
    | _ => false
  | _ => false

/-- Concrete rational instantiation of the transcendental primitives, used
to evaluate the model at explicit inputs (witnesses and counterexamples):
`sqrt` is the identity (so it agrees with the real square root at 0 and 1),
`log` is 0, `exp` is 1, the CDF is the identity and the PDF is 1. -/
def qPrims : MathPrims ℚ :=
  { sqrt := fun z => z
    log := fun _ => 0
    exp := fun _ => 1
    normCdf := fun z => z
    normPdf := fun _ => 1 }

/-- A second rational instantiation whose CDF is the constant 1/2, so that
it satisfies the symmetry `cdf(z) + cdf(-z) = 1` of the standard normal
CDF. -/
def qPrimsHalf : MathPrims ℚ :=
  { sqrt := fun z => z
    log := fun _ => 0
    exp := fun _ => 1
    normCdf := fun _ => (1 : ℚ) / 2
    normPdf := fun _ => 1 }

end PricingModel

section Helpers

variable {α : Type} [LinearOrderedField α]

/-- When every implicit-domain guard passes, the call branch is reached and
the function returns Python's `None`. -/
theorem gbs_call_eq (M : MathPrims α) (fs x t r b v : α)
    (h1 : ¬ t < 0) (h2 : x ≠ 0) (h3 : ¬ fs / x ≤ 0) (h4 : ¬ v * M.sqrt t = 0) :
    _generalized_black_scholes M "call" fs x t r b v = Except.ok none := by
  unfold _generalized_black_scholes
  rw [if_neg h1, if_neg h2, if_neg h3, if_neg h4, if_pos rfl]

/-- When every implicit-domain guard passes and the option type is not the
string "call", the put branch returns its dictionary. -/
theorem gbs_put_eq (M : MathPrims α) (ot : String) (fs x t r b v : α)
    (h1 : ¬ t < 0) (h2 : x ≠ 0) (h3 : ¬ fs / x ≤ 0) (h4 : ¬ v * M.sqrt t = 0)
    (h5 : ¬ ot = "call") :
    _generalized_black_scholes M ot fs x t r b v =
      Except.ok (some (putGreeks M fs x t r b v)) := by
  unfold _generalized_black_scholes
  rw [if_neg h1, if_neg h2, if_neg h3, if_neg h4, if_neg h5]

/-- The objective of `_implied_volatility` on a put-branch input. -/
theorem objFn_put_eq (M : MathPrims α) (ot : String) (p fs x t r b v : α)
    (h1 : ¬ t < 0) (h2 : x ≠ 0) (h3 : ¬ fs / x ≤ 0) (h4 : ¬ v * M.sqrt t = 0)
    (h5 : ¬ ot = "call") :
    objFn M ot p fs x t r b v =
      Except.ok |(putGreeks M fs x t r b v).value - p| := by
  unfold objFn
  rw [gbs_put_eq M ot fs x t r b v h1 h2 h3 h4 h5]
  rfl

/-- Any value the solver objective returns is an absolute value, hence
nonnegative. -/
theorem objFn_ok_nonneg (M : MathPrims α) (ot : String) (p fs x t r b v e : α)
    (h : objFn M ot p fs x t r b v = Except.ok e) : 0 ≤ e := by
  unfold objFn at h
  cases hg : _generalized_black_scholes M ot fs x t r b v with
  | error msg => rw [hg] at h; exact absurd h (by simp [Except.bind])
  | ok og =>
    rw [hg] at h
    cases og with
    | none => simp [Except.bind] at h
    | some g =>
      simp [Except.bind] at h
      rw [← h]
      exact abs_nonneg _

/-- A computation that raised is not a success. -/
theorem isErr_ne_ok {β : Type} {r : Except String β} (h : isErr r = true) (y : β) :
    r ≠ Except.ok y := by
  intro hc
  rw [hc] at h
  exact Bool.false_ne_true h

end Helpers

section Claims

variable {α : Type} [LinearOrderedField α]

/-- Claim C1: on any input that passes the implicit domain guards,
`_generalized_black_scholes` with option_type "call" (and hence every
specialization called with "call") returns Python's `None` — only the put
branch returns the Greeks dictionary, whose `vega` and `rho` entries are
the computed sensitivities divided by 100. -/
theorem c1_call_branch_returns_none (M : MathPrims α) (fs x t r b q rf v : α)
    (h1 : ¬ t < 0) (h2 : x ≠ 0) (h3 : ¬ fs / x ≤ 0) (h4 : ¬ v * M.sqrt t = 0) :
    _generalized_black_scholes M "call" fs x t r b v = Except.ok none ∧
    _generalized_black_scholes M "put" fs x t r b v =
      Except.ok (some (putGreeks M fs x t r b v)) ∧
    (putGreeks M fs x t r b v).vega = put_vega M fs x t r b v / 100 ∧
    (putGreeks M fs x t r b v).rho = put_rho M fs x t r b v / 100 ∧
    black_scholes M "call" fs x t r v = Except.ok none ∧
    black_scholes_merton M "call" fs x t r q v = Except.ok none ∧
    black_scholes_commodity M "call" fs x t r v = Except.ok none ∧
    garman_kohlhagen M "call" fs x t r rf v = Except.ok none := by
  refine ⟨gbs_call_eq M fs x t r b v h1 h2 h3 h4,
    gbs_put_eq M "put" fs x t r b v h1 h2 h3 h4 (by decide), rfl, rfl,
    gbs_call_eq M fs x t r r v h1 h2 h3 h4,
    gbs_call_eq M fs x t r (r - q) v h1 h2 h3 h4,
    gbs_call_eq M fs x t r 0 v h1 h2 h3 h4,
    gbs_call_eq M fs x t r (r - rf) v h1 h2 h3 h4⟩

/-- Witness for C1 at a concrete input. -/
theorem c1_call_branch_returns_none_witness :
    ¬ ((1 : ℚ) * qPrims.sqrt 1 = 0) ∧
    _generalized_black_scholes qPrims "call" 1 1 1 0 0 1 = Except.ok none ∧
    _generalized_black_scholes qPrims "put" 1 1 1 0 0 1 =
      Except.ok (some (putGreeks qPrims 1 1 1 0 0 1)) := by
  have h4 : ¬ ((1 : ℚ) * qPrims.sqrt 1 = 0) := by norm_num [qPrims]
  have h := c1_call_branch_returns_none qPrims 1 1 1 0 0 0 0 1
    (by norm_num) (by norm_num) (by norm_num) h4
  exact ⟨h4, h.1, h.2.1⟩

/-- Claim C2 counterexample: for the two equal options
`CallOption(100)`, `a + b` nets quantity 1 (not 2) because the dict
comprehension overwrites the first tuple, and `(a - b).value(120)` is
`-20`, not `0`. -/
theorem c2_counterexample :
    ((CallOption (100 : ℚ) none).add (CallOption 100 none)).options =
      [(CallOption 100 none, 1)] ∧
    ((CallOption (100 : ℚ) none).sub (CallOption 100 none)).value 120 =
      Except.ok (-20) ∧
    ((CallOption (100 : ℚ) none).sub (CallOption 100 none)).value 120 ≠
      Except.ok 0 := by
  have h2 : ((CallOption (100 : ℚ) none).sub (CallOption 100 none)).value 120 =
      Except.ok (-20) := by
    norm_num [CallOption, PyOption.sub, mkOptionPortfolio, dictOfList, dictSet,
      optEq, optHash, OptionPortfolio.value, sumLegs, PyOption.value, Except.bind]
  refine ⟨?_, h2, ?_⟩
  · simp [CallOption, PyOption.add, mkOptionPortfolio, dictOfList, dictSet,
      optEq, optHash]
  · rw [h2]
    norm_num

/-- Claim C2 amended: for two equal Options `a` and `b`, `a + b` produces a
one-leg Portfolio with that leg at quantity 1 (the second tuple of the dict
comprehension in `OptionPortfolio.__init__` overwrites the first), and
`a - b` produces quantity -1, so `(a - b).value(s)` equals the negated
payoff of the option, not 0. -/
theorem c2_equal_options_overwrite (a b : PyOption α) (h : optEq a b = true) :
    (a.add b).options = [(a, 1)] ∧
    (a.sub b).options = [(a, -1)] ∧
    ∀ s : α, (a.sub b).value s = (a.value s).map (fun y => -y) := by
  have hadd : (a.add b).options = [(a, 1)] := by
    simp [PyOption.add, mkOptionPortfolio, dictOfList, dictSet, h]
  have hsub : (a.sub b).options = [(a, -1)] := by
    simp [PyOption.sub, mkOptionPortfolio, dictOfList, dictSet, h]
  refine ⟨hadd, hsub, fun s => ?_⟩
  show sumLegs (a.sub b).options s 0 = _
  rw [hsub]
  cases hv : a.value s with
  | error msg => simp [sumLegs, hv, Except.map, Except.bind]
  | ok y =>
    simp [sumLegs, hv, Except.map, Except.bind]

/-- Witness for the amended C2 at two equal calls differing only in
`time_to_expiration`. -/
theorem c2_equal_options_overwrite_witness :
    optEq (CallOption (100 : ℚ) (some 1)) (CallOption 100 none) = true ∧
    ((CallOption (100 : ℚ) (some 1)).add (CallOption 100 none)).options =
      [(CallOption 100 (some 1), 1)] ∧
    ((CallOption (100 : ℚ) (some 1)).sub (CallOption 100 none)).options =
      [(CallOption 100 (some 1), -1)] := by
  have h : optEq (CallOption (100 : ℚ) (some 1)) (CallOption 100 none) = true := by
    simp [optEq, optHash, CallOption]
  have hc := c2_equal_options_overwrite (CallOption (100 : ℚ) (some 1))
    (CallOption 100 none) h
  exact ⟨h, hc.1, hc.2.1⟩

/-- Claim C3 (code bug): even on a well-posed query — the target price `p`
strictly between the model prices at the two bracket endpoints, exactly
what `p = price(v0)` for an interior `v0` and a price increasing in `v`
produces — `_implied_volatility` raises instead of returning a volatility,
because its objective `abs(price(v) - p)` is positive at both endpoints
and `scipy.optimize.bisect` demands opposite signs. -/
theorem c3_round_trip_errors (M : MathPrims α) (ot : String) (mi : ℕ)
    (minv maxv xtol p fs x t r b : α)
    (h : strictlyBracketed M ot fs x t r b minv maxv p = true) :
    isErr (_implied_volatility M ot mi minv maxv xtol p fs x t r b) = true := by
  unfold strictlyBracketed at h
  cases hg1 : _generalized_black_scholes M ot fs x t r b minv with
  | error msg => rw [hg1] at h; simp at h
  | ok og1 =>
    rw [hg1] at h
    cases og1 with
    | none => simp at h
    | some g1 =>
      cases hg2 : _generalized_black_scholes M ot fs x t r b maxv with
      | error msg => rw [hg2] at h; simp at h
      | ok og2 =>
        rw [hg2] at h
        cases og2 with
        | none => simp at h
        | some g2 =>
          simp only [Bool.and_eq_true, decide_eq_true_eq] at h
          obtain ⟨hlt1, hlt2⟩ := h
          have ho1 : objFn M ot p fs x t r b minv = Except.ok |g1.value - p| := by
            unfold objFn; rw [hg1]; rfl
          have ho2 : objFn M ot p fs x t r b maxv = Except.ok |g2.value - p| := by
            unfold objFn; rw [hg2]; rfl
          unfold _implied_volatility bisect
          rw [ho1, ho2]
          simp only [Except.bind]
          have hpos : |g1.value - p| * |g2.value - p| > 0 :=
            mul_pos (abs_pos.mpr (sub_ne_zero.mpr (ne_of_lt hlt1)))
              (abs_pos.mpr (sub_ne_zero.mpr (ne_of_gt hlt2)))
          rw [if_pos hpos]
          rfl

/-- Witness for C3 at a concrete well-posed query. -/
theorem c3_round_trip_errors_witness :
    strictlyBracketed qPrims "put" 1 1 1 0 0 (1 / 100) 1 (1 / 2) = true ∧
    isErr (_implied_volatility qPrims "put" 500 (1 / 100) 1 (1 / 1000) (1 / 2)
      1 1 1 0 0) = true := by
  have hb : strictlyBracketed qPrims "put" 1 1 1 0 0 (1 / 100) 1 (1 / 2) = true := by
    unfold strictlyBracketed
    rw [gbs_put_eq qPrims "put" 1 1 1 0 0 (1 / 100) (by norm_num) (by norm_num)
      (by norm_num) (by norm_num [qPrims]) (by decide)]
    rw [gbs_put_eq qPrims "put" 1 1 1 0 0 1 (by norm_num) (by norm_num)
      (by norm_num) (by norm_num [qPrims]) (by decide)]
    norm_num [putGreeks, put_value, d1, d2, qPrims]
  exact ⟨hb, c3_round_trip_errors qPrims "put" 500 (1 / 100) 1 (1 / 1000) (1 / 2)
    1 1 1 0 0 hb⟩

/-- Claim C4: a call option's payoff is `max(spot - strike, 0)` and a put
option's payoff is `max(strike - spot, 0)`, for every spot and strike. -/
theorem c4_option_payoff (k s : α) (tte tte2 : Option α) :
    (CallOption k tte).value s = Except.ok (max (s - k) 0) ∧
    (PutOption k tte2).value s = Except.ok (max (k - s) 0) :=
  ⟨rfl, rfl⟩

/-- Claim C5 (code bug): the generalized formula returns `None` for a call,
so the claimed identity between *returned* values cannot even be formed;
but the call value the call branch computes and discards does satisfy
put-call parity against the returned put value:
`call - put = fs*exp((b-r)*t) - x*exp(-r*t)`, given the standard normal CDF
symmetry `cdf(z) + cdf(-z) = 1`. -/
theorem c5_put_call_parity (M : MathPrims α) (fs x t r b v : α)
    (h1 : ¬ t < 0) (h2 : x ≠ 0) (h3 : ¬ fs / x ≤ 0) (h4 : ¬ v * M.sqrt t = 0)
    (hcdf : ∀ z : α, M.normCdf z + M.normCdf (-z) = 1) :
    _generalized_black_scholes M "call" fs x t r b v = Except.ok none ∧
    call_value M fs x t r b v - put_value M fs x t r b v =
      fs * M.exp ((b - r) * t) - x * M.exp (-(r * t)) := by
  refine ⟨gbs_call_eq M fs x t r b v h1 h2 h3 h4, ?_⟩
  have hd1 := hcdf (d1 M fs x t b v)
  have hd2 := hcdf (d2 M fs x t b v)
  unfold call_value put_value
  linear_combination (fs * M.exp ((b - r) * t)) * hd1 - (x * M.exp (-(r * t))) * hd2

/-- Witness for C5 at a concrete input with a CDF satisfying the normal
symmetry. -/
theorem c5_put_call_parity_witness :
    qPrimsHalf.normCdf 0 + qPrimsHalf.normCdf (-0) = 1 ∧
    _generalized_black_scholes qPrimsHalf "call" 1 1 1 0 0 1 = Except.ok none ∧
    call_value qPrimsHalf 1 1 1 0 0 1 - put_value qPrimsHalf 1 1 1 0 0 1 =
      1 * qPrimsHalf.exp ((0 - 0) * 1) - 1 * qPrimsHalf.exp (-(0 * 1)) := by
  have hcdf : ∀ z : ℚ, qPrimsHalf.normCdf z + qPrimsHalf.normCdf (-z) = 1 := by
    intro z; norm_num [qPrimsHalf]
  have h := c5_put_call_parity qPrimsHalf 1 1 1 0 0 1 (by norm_num) (by norm_num)
    (by norm_num) (by norm_num [qPrimsHalf]) hcdf
  exact ⟨hcdf 0, h.1, h.2⟩

/-- Claim C6: each pricing specialization equals the generalized formula
with the cost of carry fixed as `b = r`, `b = r - q`, `b = 0` and
`b = r - rf` respectively. -/
theorem c6_specializations_fix_b (M : MathPrims α) (ot : String)
    (fs x t r q rf v : α) :
    black_scholes M ot fs x t r v =
      _generalized_black_scholes M ot fs x t r r v ∧
    black_scholes_merton M ot fs x t r q v =
      _generalized_black_scholes M ot fs x t r (r - q) v ∧
    black_scholes_commodity M ot fs x t r v =
      _generalized_black_scholes M ot fs x t r 0 v ∧
    garman_kohlhagen M ot fs x t r rf v =
      _generalized_black_scholes M ot fs x t r (r - rf) v :=
  ⟨rfl, rfl, rfl, rfl⟩

/-- Claim C7 (code bug): the stock and commodity implied-volatility
wrappers accept `max_iter`, `min_volatility`, `max_volatility`, `xtol`,
but pass the hardcoded literals 500, 0.01, 1.0, 0.001 to
`_implied_volatility`; the wrappers' output is therefore independent of
every one of those caller arguments. -/
theorem c7_wrappers_ignore_config (M : MathPrims α) (ot : String)
    (mi mi2 : ℕ) (minv maxv xt minv2 maxv2 xt2 : α) (p fs x t r q : α) :
    implied_volatility_stock M ot mi minv maxv xt p fs x t r q =
      _implied_volatility M ot 500 (1 / 100) 1 (1 / 1000) p fs x t r (r - q) ∧
    implied_volatility_stock M ot mi minv maxv xt p fs x t r q =
      implied_volatility_stock M ot mi2 minv2 maxv2 xt2 p fs x t r q ∧
    implied_volatility_commodity M ot mi minv maxv xt p fs x t r =
      _implied_volatility M ot 500 (1 / 100) 1 (1 / 1000) p fs x t r 0 ∧
    implied_volatility_commodity M ot mi minv maxv xt p fs x t r =
      implied_volatility_commodity M ot mi2 minv2 maxv2 xt2 p fs x t r :=
  ⟨rfl, rfl, rfl, rfl⟩

/-- Claim C8 counterexample: the out-of-domain input `v = -1` (with
otherwise ordinary parameters) raises no error and returns an ordinary
numeric Greeks dictionary. -/
theorem c8_counterexample :
    isErr (_generalized_black_scholes qPrims "put" 100 100 1 0 0 (-1)) = false ∧
    isOkSome (_generalized_black_scholes qPrims "put" 100 100 1 0 0 (-1)) = true := by
  have h := gbs_put_eq qPrims "put" 100 100 1 0 0 (-1) (by norm_num) (by norm_num)
    (by norm_num) (by norm_num [qPrims]) (by decide)
  constructor <;> rw [h] <;> rfl

/-- Claim C8 amended: the engine does fail with an error for `t <= 0`
(sqrt domain / zero denominator), `x = 0` (division by zero),
`fs / x <= 0` (log domain — which covers `fs = 0` and `fs`, `x` of opposite
signs) and `v = 0` (zero denominator); but not for every input outside the
mathematical domain — `v < 0`, or `fs` and `x` both negative, slip through
and produce an ordinary result. -/
theorem c8_domain_errors (M : MathPrims α) (hs0 : M.sqrt 0 = 0) (ot : String)
    (fs x t r b v : α) (h : t ≤ 0 ∨ x = 0 ∨ fs / x ≤ 0 ∨ v = 0) :
    isErr (_generalized_black_scholes M ot fs x t r b v) = true := by
  unfold _generalized_black_scholes
  by_cases h1 : t < 0
  · rw [if_pos h1]; rfl
  · rw [if_neg h1]
    by_cases h2 : x = 0
    · rw [if_pos h2]; rfl
    · rw [if_neg h2]
      by_cases h3 : fs / x ≤ 0
      · rw [if_pos h3]; rfl
      · rw [if_neg h3]
        have h4 : v * M.sqrt t = 0 := by
          rcases h with ht | hx | hfx | hv
          · rw [le_antisymm ht (not_lt.mp h1), hs0, mul_zero]
          · exact absurd hx h2
          · exact absurd hfx h3
          · rw [hv, zero_mul]
        rw [if_pos h4]; rfl

/-- Witness for the amended C8 at `t = -1`. -/
theorem c8_domain_errors_witness :
    qPrims.sqrt 0 = 0 ∧ ((-1 : ℚ) ≤ 0) ∧
    isErr (_generalized_black_scholes qPrims "call" 1 1 (-1) 0 0 1) = true :=
  ⟨rfl, by norm_num,
    c8_domain_errors qPrims rfl "call" 1 1 (-1) 0 0 1 (Or.inl (by norm_num))⟩

/-- Claim C9: two Options are equal exactly when they agree on the triple
(option_type, exercise_price, exercise_type); `time_to_expiration` plays no
role, so two options differing only there are equal and interchangeable as
portfolio dictionary keys. -/
theorem c9_equality_is_triple (a b : PyOption α) :
    (optEq a b = true ↔
      (a.option_type = b.option_type ∧ a.exercise_price = b.exercise_price ∧
        a.exercise_type = b.exercise_type)) ∧
    (∀ t1 t2 : Option α,
      optEq { a with time_to_expiration := t1 }
        { a with time_to_expiration := t2 } = true) ∧
    (optEq a b = true → ∀ (d : List (PyOption α × Int)) (dflt : Int),
      dictGet d a dflt = dictGet d b dflt) := by
  refine ⟨?_, ?_, ?_⟩
  · simp [optEq, optHash, Prod.ext_iff]
  · intro t1 t2; simp [optEq, optHash]
  · intro h d dflt
    have hhash : optHash a = optHash b := by
      simpa [optEq] using h
    induction d with
    | nil => rfl
    | cons kv rest ih =>
      obtain ⟨k2, v0⟩ := kv
      show (if optEq k2 a then v0 else dictGet rest a dflt) =
        (if optEq k2 b then v0 else dictGet rest b dflt)
      have hk : optEq k2 a = optEq k2 b := by
        simp [optEq, hhash]
      rw [hk, ih]

/-- Witness for C9: equal keys that differ only in time to expiration give
the same dictionary lookups. -/
theorem c9_equality_is_triple_witness :
    optEq (CallOption (100 : ℚ) (some 1)) (CallOption 100 none) = true ∧
    dictGet [(PutOption (100 : ℚ) none, 3)] (CallOption 100 (some 1)) 0 =
      dictGet [(PutOption (100 : ℚ) none, 3)] (CallOption 100 none) 0 := by
  have h : optEq (CallOption (100 : ℚ) (some 1)) (CallOption 100 none) = true := by
    simp [optEq, optHash, CallOption]
  exact ⟨h, (c9_equality_is_triple (CallOption (100 : ℚ) (some 1))
    (CallOption 100 none)).2.2 h [(PutOption (100 : ℚ) none, 3)] 0⟩

/-- Claim C10: the solver's objective is the nonnegative `|price(v) - p|`
while the bisection it calls needs opposite signs at the bracket ends; so
whenever the objective does not vanish at `min_volatility` and at
`max_volatility`, `_implied_volatility` raises instead of returning, and in
particular it never returns an interior volatility. -/
theorem c10_bisect_on_abs_objective (M : MathPrims α) (ot : String) (mi : ℕ)
    (minv maxv xtol p fs x t r b : α)
    (hmin : objNonzeroAt M ot p fs x t r b minv = true)
    (hmax : objNonzeroAt M ot p fs x t r b maxv = true) :
    isErr (_implied_volatility M ot mi minv maxv xtol p fs x t r b) = true ∧
    ∀ v0 : α, _implied_volatility M ot mi minv maxv xtol p fs x t r b ≠
      Except.ok v0 := by
  have herr : isErr (_implied_volatility M ot mi minv maxv xtol p fs x t r b) = true := by
    unfold _implied_volatility bisect
    cases hg1 : objFn M ot p fs x t r b minv with
    | error msg => rfl
    | ok e1 =>
      simp only [Except.bind]
      cases hg2 : objFn M ot p fs x t r b maxv with
      | error msg => rfl
      | ok e2 =>
        simp only [Except.bind]
        have hne1 : e1 ≠ 0 := by
          unfold objNonzeroAt at hmin
          rw [hg1] at hmin
          simpa using hmin
        have hne2 : e2 ≠ 0 := by
          unfold objNonzeroAt at hmax
          rw [hg2] at hmax
          simpa using hmax
        have hp1 : 0 < e1 := lt_of_le_of_ne (objFn_ok_nonneg M ot p fs x t r b minv e1 hg1)
          (Ne.symm hne1)
        have hp2 : 0 < e2 := lt_of_le_of_ne (objFn_ok_nonneg M ot p fs x t r b maxv e2 hg2)
          (Ne.symm hne2)
        rw [if_pos (mul_pos hp1 hp2)]
        rfl
  exact ⟨herr, fun v0 => isErr_ne_ok herr v0⟩

/-- Witness for C10 at a concrete input whose objective is nonzero at both
bracket endpoints. -/
theorem c10_bisect_on_abs_objective_witness :
    objNonzeroAt qPrims "put" (1 / 3) 1 1 1 0 0 (1 / 100) = true ∧
    objNonzeroAt qPrims "put" (1 / 3) 1 1 1 0 0 1 = true ∧
    isErr (_implied_volatility qPrims "put" 500 (1 / 100) 1 (1 / 1000) (1 / 3)
      1 1 1 0 0) = true := by
  have h1 : objNonzeroAt qPrims "put" (1 / 3) 1 1 1 0 0 (1 / 100) = true := by
    unfold objNonzeroAt
    rw [objFn_put_eq qPrims "put" (1 / 3) 1 1 1 0 0 (1 / 100) (by norm_num)
      (by norm_num) (by norm_num) (by norm_num [qPrims]) (by decide)]
    norm_num [putGreeks, put_value, d1, d2, qPrims]
  have h2 : objNonzeroAt qPrims "put" (1 / 3) 1 1 1 0 0 1 = true := by
    unfold objNonzeroAt
    rw [objFn_put_eq qPrims "put" (1 / 3) 1 1 1 0 0 1 (by norm_num)
      (by norm_num) (by norm_num) (by norm_num [qPrims]) (by decide)]
    norm_num [putGreeks, put_value, d1, d2, qPrims]
  exact ⟨h1, h2, (c10_bisect_on_abs_objective qPrims "put" 500 (1 / 100) 1
    (1 / 1000) (1 / 3) 1 1 1 0 0 h1 h2).1⟩

end Claims
